import Mathlib

/-!
Verification of the satsuki release-management core.

This file gives a shallow embedding, in Lean, of the argument-resolution
(Configuration Resolver) and asset-upload (Upload Coordinator) logic of the
satsuki package (`satsuki/__init__.py`), and proves or refutes the frozen
specification claims about it.

Conventions of the embedding:
* Python `None`-able values become `Option`.
* Functions that may call the fatal error helper (`satsuki._error`, which
  raises) return `Except SatsukiError _`.
* The remote GitHub gateway is modelled by explicit parameters: a boolean
  "release found" probe, an asset list, and per-attempt upload behaviours.
* File-system and environment reads become explicit parameters.
-/

namespace Satsuki

/-- The Python exception classes raised through `satsuki._error`. -/
inductive SatsukiError where
  | permissionError
  | attributeError
  | typeError
  | referenceError
  deriving DecidableEq, Repr

/-- The two user-level commands (`Arguments.COMMAND_UPSERT` / `COMMAND_DELETE`).
`_init_basic` guarantees `user_command` is one of exactly these two. -/
inductive UserCommand where
  | upsert
  | delete
  deriving DecidableEq, Repr

/-- The six internal commands (`Arguments._COMMAND_*`). -/
inductive InternalCommand where
  | create
  | recreate
  | update
  | deleteFile
  | deleteRel
  | deleteTag
  deriving DecidableEq, Repr

/-- A remote git tag as used by `_init_internal_command`: its name and,
when the tag object has a `commit` attribute, the commit SHA
(`_working_tag.commit.sha`). -/
structure GitTag where
  name : String
  commitSha : Option String
  deriving DecidableEq, Repr

/-- The recreate condition of `Arguments._init_internal_command`
(lines 353-357): the found working tag is not `None`, has a `commit`
attribute, a target commitish was given, the tag's commit SHA differs from
the target commitish, and the `recreate` flag is set. -/
def recreateCondition (workingTag : Option GitTag) (targetCommitish : Option String)
    (recreate : Bool) : Bool :=
  match workingTag with
  | Option.none => false
  | Option.some t =>
    match t.commitSha, targetCommitish with
    | Option.some sha, Option.some c => (sha ≠ c : Bool) && recreate
    | _, _ => false

/-- Embedding of `Arguments._init_internal_command` (lines 337-382).
`releaseFound` is the result of the `_get_release()` gateway probe;
`fileInfoLen` is `len(self.file_info)`. -/
def initInternalCommand (releaseFound : Bool) (userCommand : UserCommand)
    (workingTag : Option GitTag) (targetCommitish : Option String)
    (recreate : Bool) (fileInfoLen : Nat) : InternalCommand :=
  if releaseFound then
    if userCommand = UserCommand.upsert then
      if recreateCondition workingTag targetCommitish recreate then
        InternalCommand.recreate
      else
        InternalCommand.update
    else if 0 < fileInfoLen ∧ userCommand = UserCommand.delete then
      InternalCommand.deleteFile
    else
      InternalCommand.deleteRel
  else
    if userCommand = UserCommand.delete then
      InternalCommand.deleteTag
    else
      InternalCommand.create

/-- The state-transition table exactly as the specification words it
(§4.2): inputs are (release exists?, user mode, file manifest empty?,
commit-differs-and-recreate-allowed?). This definition follows the spec's
words, for comparison with `initInternalCommand`, which follows the code. -/
def specCommandTable (releaseExists : Bool) (mode : UserCommand)
    (manifestEmpty : Bool) (commitDiffersRecreate : Bool) : InternalCommand :=
  if releaseExists then
    match mode with
    | UserCommand.upsert =>
      if commitDiffersRecreate then InternalCommand.recreate else InternalCommand.update
    | UserCommand.delete =>
      if manifestEmpty then InternalCommand.deleteRel else InternalCommand.deleteFile
  else
    match mode with
    | UserCommand.upsert => InternalCommand.create
    | UserCommand.delete => InternalCommand.deleteTag

/-- C1: the Configuration Resolver's command derivation agrees, for every
input, with the spec's six-way state-transition table: release found +
upsert gives RECREATE exactly under the commit-differs-and-recreate-allowed
condition and UPDATE otherwise; release found + delete gives DELETE_FILE
for a non-empty manifest and DELETE_RELEASE for an empty one; release not
found gives DELETE_TAG for delete and CREATE for upsert. -/
theorem internal_command_matches_spec_table (releaseFound : Bool)
    (userCommand : UserCommand) (workingTag : Option GitTag)
    (targetCommitish : Option String) (recreate : Bool) (fileInfoLen : Nat) :
    initInternalCommand releaseFound userCommand workingTag targetCommitish
        recreate fileInfoLen =
      specCommandTable releaseFound userCommand (fileInfoLen == 0)
        (recreateCondition workingTag targetCommitish recreate) := by
  cases releaseFound <;> cases userCommand <;>
    cases fileInfoLen <;>
    simp [initInternalCommand, specCommandTable]

/-! ## Basic resolution: token, user command, slug (`Arguments._init_basic`) -/

/-- The keyword inputs consumed by `Arguments._init_basic` (lines 136-204),
after the `__init__` cleaning pass. `Option.none` models an absent key. -/
structure BasicKwargs where
  token : Option String
  command : Option String
  force : Option Bool
  slug : Option String
  repo : Option String
  user : Option String
  recreate : Option Bool
  commitish : Option String
  deriving DecidableEq, Repr

/-- The attributes `_init_basic` resolves on success. -/
structure BasicConfig where
  apiToken : String
  userCommand : UserCommand
  force : Bool
  slug : String
  recreate : Bool
  targetCommitish : Option String
  deriving DecidableEq, Repr

/-- The test `'/' in slug` (line 176): character membership in the string. -/
def containsSlash (s : String) : Bool := s.data.contains '/'

/-- The user-command branch of `_init_basic` (lines 151-160): default
`upsert`, accept the two literal commands, fatal `AttributeError` on
anything else. -/
def parseUserCommand : Option String → Except SatsukiError UserCommand
  | Option.none => Except.ok UserCommand.upsert
  | Option.some c =>
    if c = "upsert" then Except.ok UserCommand.upsert
    else if c = "delete" then Except.ok UserCommand.delete
    else Except.error SatsukiError.attributeError

/-- The slug keyword with environment-variable fallback (lines 165-174). -/
def slugFallback : Option String → Option String → Option String
  | Option.some s, _ => Option.some s
  | Option.none, env => env

/-- Lines 176-179: a slug string lacking the `'/'` separator is treated as
absent (`self.slug = None`). -/
def slugSeparatorFilter : Option String → Option String
  | Option.some s => if containsSlash s then Option.some s else Option.none
  | Option.none => Option.none

/-- The slug branch of `_init_basic` (lines 164-191): the slug keyword with
environment fallback, a slug without a `'/'` separator treated as absent,
then the owner+repo fallback, else fatal `AttributeError`. -/
def resolveSlug (slugKw envSlug user repo : Option String) :
    Except SatsukiError String :=
  match slugSeparatorFilter (slugFallback slugKw envSlug) with
  | Option.some s => Except.ok s
  | Option.none =>
    match user, repo with
    | Option.some u, Option.some r => Except.ok (u ++ "/" ++ r)
    | _, _ => Except.error SatsukiError.attributeError

/-- Embedding of `Arguments._init_basic` (lines 136-204). `envSlug` models
the `TRAVIS_REPO_SLUG` / `APPVEYOR_REPO_NAME` environment fallback and
`envCommit` the `TRAVIS_COMMIT` / `APPVEYOR_REPO_COMMIT` fallback. The
fatal checks fire in source order: token, then command, then slug. -/
def initBasic (kw : BasicKwargs) (envSlug : Option String)
    (envCommit : Option String) : Except SatsukiError BasicConfig :=
  match kw.token with
  | Option.none => Except.error SatsukiError.permissionError
  | Option.some apiToken =>
    match parseUserCommand kw.command with
    | Except.error e => Except.error e
    | Except.ok userCommand =>
      match resolveSlug kw.slug envSlug kw.user kw.repo with
      | Except.error e => Except.error e
      | Except.ok slug =>
        Except.ok ⟨apiToken, userCommand, kw.force.getD false, slug,
          kw.recreate.getD false,
          (match kw.commitish with
           | Option.some c => Option.some c
           | Option.none => envCommit)⟩

/-- The `__init__` cleaning pass on one string option (lines 694-697):
keys whose value is falsy (for strings: empty) are dropped before
resolution. (The subsequent trim/unquote pass does not affect emptiness.) -/
def dropEmpty : Option String → Option String
  | Option.some s => if s = "" then Option.none else Option.some s
  | Option.none => Option.none

/-- C7: every RawInput whose token is absent, or empty and hence dropped by
the cleaning pass, fails resolution immediately with the
PermissionDenied-category error (`PermissionError`), so no configuration is
produced. -/
theorem missing_token_fails_with_permission_error (kw : BasicKwargs)
    (envSlug envCommit : Option String)
    (h : dropEmpty kw.token = Option.none) :
    initBasic { kw with token := dropEmpty kw.token } envSlug envCommit =
      Except.error SatsukiError.permissionError := by
  rw [h]
  rfl

/-- Witness for C7 at a concrete input: an all-absent RawInput, and one
whose token is the empty string. -/
theorem missing_token_fails_with_permission_error_witness :
    initBasic
        { token := dropEmpty (Option.some ""), command := Option.none,
          force := Option.none, slug := Option.some "o/r",
          repo := Option.none, user := Option.none,
          recreate := Option.none, commitish := Option.none }
        Option.none Option.none =
      Except.error SatsukiError.permissionError :=
  missing_token_fails_with_permission_error
    { token := Option.some "", command := Option.none, force := Option.none,
      slug := Option.some "o/r", repo := Option.none, user := Option.none,
      recreate := Option.none, commitish := Option.none }
    Option.none Option.none rfl

/-- A slug surviving the separator filter does contain the separator. -/
theorem slugSeparatorFilter_some (o : Option String) (s : String)
    (h : slugSeparatorFilter o = Option.some s) : containsSlash s = true := by
  unfold slugSeparatorFilter at h
  split at h
  · split at h
    · cases h; assumption
    · exact absurd h (by simp)
  · exact absurd h (by simp)

/-- Helper: the length of the literal separator string. -/
theorem slash_length : ("/" : String).length = 1 := rfl

/-- Any slug produced by a successful slug resolution is non-empty: either
it contained the separator, or it is the synthesized `user ++ "/" ++ repo`. -/
theorem resolveSlug_ok_length_pos (slugKw envSlug user repo : Option String)
    (s : String) (h : resolveSlug slugKw envSlug user repo = Except.ok s) :
    0 < s.length := by
  unfold resolveSlug at h
  cases hfil : slugSeparatorFilter (slugFallback slugKw envSlug) with
  | some s0 =>
    rw [hfil] at h
    have h2 : s0 = s := by simpa using h
    subst h2
    have hcs := slugSeparatorFilter_some _ _ hfil
    have hne : s0.data ≠ [] := by
      intro hnil
      simp [containsSlash, hnil] at hcs
    exact List.length_pos.mpr hne
  | none =>
    rw [hfil] at h
    cases hu : user with
    | none =>
      rw [hu] at h
      simp at h
    | some u =>
      cases hr : repo with
      | none =>
        rw [hu, hr] at h
        simp at h
      | some r =>
        rw [hu, hr] at h
        have h2 : u ++ "/" ++ r = s := by simpa using h
        rw [← h2]
        simp [String.length_append, slash_length]

/-- C8: for every RawInput whose repo slug lacks the `'/'` separator, the
slug is treated as absent: with both owner and repo provided the resolved
slug is `owner ++ "/" ++ repo`; otherwise resolution fails with the
configuration error (`AttributeError`); and every successful resolution
yields a non-empty slug. -/
theorem separatorless_slug_rules (kw : BasicKwargs)
    (envSlug envCommit : Option String) (t s : String)
    (htok : kw.token = Option.some t) (hcmd : kw.command = Option.none)
    (hslug : kw.slug = Option.some s) (hsep : containsSlash s = false) :
    (∀ u r, kw.user = Option.some u → kw.repo = Option.some r →
      ∃ cfg, initBasic kw envSlug envCommit = Except.ok cfg ∧
        cfg.slug = u ++ "/" ++ r)
    ∧ ((kw.user = Option.none ∨ kw.repo = Option.none) →
      initBasic kw envSlug envCommit = Except.error SatsukiError.attributeError)
    ∧ (∀ (kw2 : BasicKwargs) (es ec : Option String) (cfg : BasicConfig),
      initBasic kw2 es ec = Except.ok cfg → 0 < cfg.slug.length) := by
  refine ⟨?_, ?_, ?_⟩
  · intro u r hu hr
    have hres : initBasic kw envSlug envCommit =
        Except.ok ⟨t, UserCommand.upsert, kw.force.getD false, u ++ "/" ++ r,
          kw.recreate.getD false,
          (match kw.commitish with
           | Option.some c => Option.some c
           | Option.none => envCommit)⟩ := by
      simp [initBasic, htok, hcmd, hslug, hsep, hu, hr, parseUserCommand,
        resolveSlug, slugFallback, slugSeparatorFilter]
    exact ⟨_, hres, rfl⟩
  · intro h
    rcases h with hu | hr
    · cases hrep : kw.repo <;>
        simp [initBasic, htok, hcmd, hslug, hsep, hu, hrep, parseUserCommand,
          resolveSlug, slugFallback, slugSeparatorFilter]
    · cases huser : kw.user <;>
        simp [initBasic, htok, hcmd, hslug, hsep, huser, hr, parseUserCommand,
          resolveSlug, slugFallback, slugSeparatorFilter]
  · intro kw2 es ec cfg h
    unfold initBasic at h
    split at h
    · exact absurd h (by simp)
    · split at h
      · exact absurd h (by simp)
      · split at h
        · exact absurd h (by simp)
        case _ slug hs =>
          cases h
          exact resolveSlug_ok_length_pos _ _ _ _ _ hs

/-- Witness for C8 at a concrete input: slug "noslash" (no separator) with
user "o" and repo "r" resolves to slug "o/r". -/
theorem separatorless_slug_rules_witness :
    ∃ cfg,
      initBasic
          { token := Option.some "tok", command := Option.none,
            force := Option.none, slug := Option.some "noslash",
            repo := Option.some "r", user := Option.some "o",
            recreate := Option.none, commitish := Option.none }
          Option.none Option.none = Except.ok cfg ∧
        cfg.slug = "o" ++ "/" ++ "r" :=
  (separatorless_slug_rules
      { token := Option.some "tok", command := Option.none,
        force := Option.none, slug := Option.some "noslash",
        repo := Option.some "r", user := Option.some "o",
        recreate := Option.none, commitish := Option.none }
      Option.none Option.none "tok" "noslash" rfl rfl rfl (by decide)).1
    "o" "r" rfl rfl

/-! ## Release data resolution for UPDATE / RECREATE (`Arguments._init_data`)
and for CREATE (`Arguments._init_data_blank`) -/

/-- The relevant fields of the current remote release
(`self.working_release`). -/
structure RemoteRelease where
  tagName : String
  prerelease : Bool
  draft : Bool
  body : String
  title : String
  deriving DecidableEq, Repr

/-- The keyword inputs consumed by `_init_data` / `_init_data_blank`
(after the cleaning pass). -/
structure DataKwargs where
  tag : Option String
  pre : Option Bool
  draft : Option Bool
  body : Option String
  relName : Option String
  deriving DecidableEq, Repr

/-- The data attributes resolved by `_init_data`. -/
structure ResolvedData where
  tag : String
  pre : Bool
  draft : Bool
  body : String
  relName : String
  deriving DecidableEq, Repr

/-- Embedding of `Arguments._init_data` (lines 566-604), run only for
UPDATE and RECREATE. `subst` models `Template(...).safe_substitute` with
the GravityBee substitutions; `currentTag` is the already-resolved
`self.tag`. Every field the caller did not supply is taken from the
current remote release. -/
def initData (latest : Bool) (kw : DataKwargs) (subst : String → String)
    (rel : RemoteRelease) (currentTag : String) : ResolvedData :=
  { tag := if latest then kw.tag.getD rel.tagName else currentTag
    pre := kw.pre.getD rel.prerelease
    draft := kw.draft.getD rel.draft
    body := match kw.body with
      | Option.none => rel.body
      | Option.some b => subst b
    relName := match kw.relName with
      | Option.none => rel.title
      | Option.some r => subst r }

/-- C4: for UPDATE/RECREATE, every release field not explicitly supplied by
the caller — prerelease, draft, body, title, and in latest mode the tag —
is set to the corresponding field of the current remote release, so no
unset field is blanked. -/
theorem update_defaults_from_remote (latest : Bool) (kw : DataKwargs)
    (subst : String → String) (rel : RemoteRelease) (currentTag : String) :
    (kw.pre = Option.none →
      (initData latest kw subst rel currentTag).pre = rel.prerelease)
    ∧ (kw.draft = Option.none →
      (initData latest kw subst rel currentTag).draft = rel.draft)
    ∧ (kw.body = Option.none →
      (initData latest kw subst rel currentTag).body = rel.body)
    ∧ (kw.relName = Option.none →
      (initData latest kw subst rel currentTag).relName = rel.title)
    ∧ (latest = true → kw.tag = Option.none →
      (initData latest kw subst rel currentTag).tag = rel.tagName) := by
  refine ⟨?_, ?_, ?_, ?_, ?_⟩ <;> intro h
  · simp [initData, h]
  · simp [initData, h]
  · simp [initData, h]
  · simp [initData, h]
  · intro htag
    simp [initData, h, htag]

/-- Witness for C4 at a concrete input: an existing release titled "Old"
with no caller-supplied fields keeps title "Old" (and the other remote
values) after resolution. -/
theorem update_defaults_from_remote_witness :
    (initData true
        ⟨Option.none, Option.none, Option.none, Option.none, Option.none⟩
        id ⟨"v1.0.0", true, false, "old body", "Old"⟩ "v1.0.0").relName =
      "Old" :=
  (update_defaults_from_remote true
      ⟨Option.none, Option.none, Option.none, Option.none, Option.none⟩
      id ⟨"v1.0.0", true, false, "old body", "Old"⟩ "v1.0.0").2.2.2.1 rfl

/-- A Python value as it can appear in `self.tag` at CREATE time: a string,
an integer (as passed programmatically), or `None` (latest mode with no tag
resolvable). Note Python booleans are `int` instances, so a literal
"latest" flag stored in the tag would fall under `pyint`. -/
inductive PyVal where
  | pystr (s : String)
  | pyint (n : Int)
  | pynone
  deriving DecidableEq, Repr

/-- The data attributes resolved by `_init_data_blank`. `relName` is a
`PyVal` because line 632 (`self.rel_name = self.tag`) copies the tag
unchanged, whatever its type. -/
structure BlankData where
  pre : Bool
  draft : Bool
  body : String
  relName : PyVal
  deriving DecidableEq, Repr

/-- Embedding of `Arguments._init_data_blank` (lines 607-635), run only
for CREATE. Defaults: `pre = draft = False`, `body = "Release " + tag`,
`rel_name = tag`. The Python expression `"Release " + self.tag` raises
`TypeError` when the tag is not a string, which the embedding surfaces as
an error. -/
def initDataBlank (tag : PyVal) (kwPre kwDraft : Option Bool)
    (kwBody kwRelName : Option String) (subst : String → String) :
    Except SatsukiError BlankData :=
  let pre := kwPre.getD false
  let draft := kwDraft.getD false
  let relName : PyVal := match kwRelName with
    | Option.none => tag
    | Option.some r => PyVal.pystr (subst r)
  match kwBody with
  | Option.some b => Except.ok ⟨pre, draft, subst b, relName⟩
  | Option.none =>
    match tag with
    | PyVal.pystr s => Except.ok ⟨pre, draft, "Release " ++ s, relName⟩
    | _ => Except.error SatsukiError.typeError

/-- The fatal precondition checks of `ReleaseMgr._create_release`
(lines 766-776): an integer tag is a fatal `TypeError` (PyGithub would
treat it as a release id), and a non-string `target_commitish` is a fatal
`AttributeError`. No other tag check exists there. -/
def createReleaseCheck (tag : PyVal) (targetCommitish : Option String) :
    Except SatsukiError Unit :=
  match tag with
  | PyVal.pyint _ => Except.error SatsukiError.typeError
  | _ =>
    match targetCommitish with
    | Option.some _ => Except.ok ()
    | Option.none => Except.error SatsukiError.attributeError

/-- The CREATE path as executed: `Arguments.__init__` runs
`_init_data_blank` (line 718), then `ReleaseMgr.execute` runs
`_create_release` (line 1106), whose checks run before the gateway call. -/
def createReleaseFlow (tag : PyVal) (targetCommitish : Option String)
    (kwPre kwDraft : Option Bool) (kwBody kwRelName : Option String)
    (subst : String → String) : Except SatsukiError BlankData :=
  match initDataBlank tag kwPre kwDraft kwBody kwRelName subst with
  | Except.error e => Except.error e
  | Except.ok d =>
    match createReleaseCheck tag targetCommitish with
    | Except.error e => Except.error e
    | Except.ok _ => Except.ok d

/-- Counterexample to C5 as stated: with a `None` tag (the latest-flag
path), a present commit reference, and caller-supplied body and release
name, the CREATE path raises no fatal error at all — the code only rejects
*integer* tags, not every non-string tag. -/
theorem create_nonstring_tag_no_error :
    createReleaseFlow PyVal.pynone (Option.some "abc123") Option.none
        Option.none (Option.some "b") (Option.some "r") id =
      Except.ok ⟨false, false, "b", PyVal.pystr "r"⟩ := rfl

/-- C5 (amended): on the CREATE path, an integer tag always raises a fatal
`TypeError`; a missing (non-string) commit reference always raises a fatal
error; and when the tag is a string, the commit reference is present, and
title/body/prerelease/draft are unsupplied, the resolved descriptor has
title = tag, body = "Release " + tag, prerelease = false, draft = false. -/
theorem create_checks_and_blank_defaults (n : Int) (tag : PyVal)
    (tc : Option String) (kwPre kwDraft : Option Bool)
    (kwBody kwRelName : Option String) (subst : String → String)
    (s c : String) :
    createReleaseFlow (PyVal.pyint n) tc kwPre kwDraft kwBody kwRelName
        subst = Except.error SatsukiError.typeError
    ∧ (∃ e, createReleaseFlow tag Option.none kwPre kwDraft kwBody kwRelName
        subst = Except.error e)
    ∧ createReleaseFlow (PyVal.pystr s) (Option.some c) Option.none
        Option.none Option.none Option.none subst =
      Except.ok ⟨false, false, "Release " ++ s, PyVal.pystr s⟩ := by
  refine ⟨?_, ?_, rfl⟩
  · cases kwBody <;>
      simp [createReleaseFlow, initDataBlank, createReleaseCheck]
  · cases tag <;> cases kwBody <;>
      simp [createReleaseFlow, initDataBlank, createReleaseCheck]

/-! ## Command-line file manifest building (`Arguments._init_files`) -/

/-- One entry of `self.file_info` as built from command-line files in
upsert mode (lines 463-486): filename, path, label (always set — defaults
to the filename), MIME type (optional). -/
structure FileInfo where
  filename : String
  path : String
  label : String
  mime : Option String
  deriving DecidableEq, Repr

/-- Embedding of `os.path.basename`: the part after the last `'/'`. -/
def basename (p : String) : String :=
  String.mk ((p.data.reverse.takeWhile (fun c => !(c == '/'))).reverse)

/-- The glob expansion in which every pattern matches exactly itself — the
case of explicit (non-wildcard, existing) file patterns. -/
def globId : String → List String := fun s => [s]

/-- The per-file record set up by lines 463-486 for glob-result index `i`
and filename `f`: one label applies to all files, otherwise positional
labels, otherwise the filename; same structure for MIME types (except the
default is `None` and no substitution is applied). Python raises
`IndexError` on an out-of-range positional access; `getD` is only read
in range in the proved statements. -/
def mkFileInfo (subst : String → String) (labels mimes : List String)
    (i : Nat) (f : String) : FileInfo :=
  { filename := basename f
    path := f
    label :=
      if 0 < labels.length then
        if labels.length = 1 then subst (labels.getD 0 "")
        else subst (labels.getD i "")
      else basename f
    mime :=
      if 0 < mimes.length then
        if mimes.length = 1 then Option.some (mimes.getD 0 "")
        else Option.some (mimes.getD i "")
      else Option.none }

/-- Embedding of the command-line-files portion of `Arguments._init_files`
for upsert mode (lines 434-486): the label-count check, the MIME-count
check (in that order), glob expansion, and the per-file info records. -/
def buildCommandLineFileInfo (subst : String → String)
    (globFn : String → List String) (files labels mimes : List String) :
    Except SatsukiError (List FileInfo) :=
  if files.length = 0 then Except.ok []
  else if files.length ≠ labels.length ∧ labels.length ≠ 0 ∧
      labels.length ≠ 1 then
    Except.error SatsukiError.attributeError
  else if files.length ≠ mimes.length ∧ mimes.length ≠ 0 ∧
      mimes.length ≠ 1 then
    Except.error SatsukiError.attributeError
  else
    Except.ok (((files.map globFn).flatten).enum.map
      (fun p => mkFileInfo subst labels mimes p.1 p.2))

/-- Mapping each element to a singleton list and flattening is the identity. -/
theorem flatten_map_singleton (l : List String) :
    (l.map (fun s => [s])).flatten = l := by
  induction l with
  | nil => rfl
  | cons a t ih => simp [ih]

/-- Computing `get?` on `enumFrom`. -/
theorem get?_enumFrom (l : List String) :
    ∀ (n i : Nat), (List.enumFrom n l).get? i =
      (l.get? i).map (fun a => (n + i, a)) := by
  induction l with
  | nil => intro n i; simp
  | cons a t ih =>
    intro n i
    cases i with
    | zero => simp [List.enumFrom]
    | succ j =>
      have harith : n + 1 + j = n + (j + 1) := by omega
      simp only [List.enumFrom, List.get?_cons_succ, ih (n + 1) j, harith]

/-- Computing `get?` on `enum`. -/
theorem get?_enum (l : List String) (i : Nat) :
    l.enum.get? i = (l.get? i).map (fun a => (i, a)) := by
  simpa using get?_enumFrom l 0 i

/-- Inversion of a successful `buildCommandLineFileInfo` run: the count
checks passed and the result is the mapped record list. -/
theorem buildCLI_ok_inv (subst : String → String)
    (globFn : String → List String) (files labels mimes : List String)
    (r : List FileInfo) (hne : files ≠ [])
    (h : buildCommandLineFileInfo subst globFn files labels mimes =
      Except.ok r) :
    r = ((files.map globFn).flatten).enum.map
        (fun p => mkFileInfo subst labels mimes p.1 p.2)
    ∧ (labels.length = 0 ∨ labels.length = 1 ∨
        labels.length = files.length)
    ∧ (mimes.length = 0 ∨ mimes.length = 1 ∨
        mimes.length = files.length) := by
  unfold buildCommandLineFileInfo at h
  by_cases h0 : files.length = 0
  · exact absurd (List.length_eq_zero.mp h0) hne
  rw [if_neg h0] at h
  by_cases h1 : files.length ≠ labels.length ∧ labels.length ≠ 0 ∧
      labels.length ≠ 1
  · rw [if_pos h1] at h
    exact absurd h (by simp)
  rw [if_neg h1] at h
  by_cases h2 : files.length ≠ mimes.length ∧ mimes.length ≠ 0 ∧
      mimes.length ≠ 1
  · rw [if_pos h2] at h
    exact absurd h (by simp)
  rw [if_neg h2] at h
  have hr : ((files.map globFn).flatten).enum.map
      (fun p => mkFileInfo subst labels mimes p.1 p.2) = r := by
    simpa using h
  exact ⟨hr.symm, by omega, by omega⟩

/-- C6: for a non-empty list of `N` explicit file patterns, resolution
succeeds exactly when the label count is 0, 1, or `N` (and, independently,
the MIME count is 0, 1, or `N`); with zero labels each file's label is its
filename, a single label applies to every matched file, and `N` labels are
assigned positionally. -/
theorem label_mime_count_rule (files labels mimes : List String)
    (subst : String → String) (hne : files ≠ []) :
    ((∃ r, buildCommandLineFileInfo subst globId files labels mimes =
        Except.ok r) ↔
      ((labels.length = 0 ∨ labels.length = 1 ∨
          labels.length = files.length)
        ∧ (mimes.length = 0 ∨ mimes.length = 1 ∨
          mimes.length = files.length)))
    ∧ (labels = [] →
      ∀ r, buildCommandLineFileInfo subst globId files labels mimes =
          Except.ok r →
        ∀ info ∈ r, info.label = info.filename)
    ∧ (∀ x, labels = [x] →
      ∀ r, buildCommandLineFileInfo subst globId files labels mimes =
          Except.ok r →
        ∀ info ∈ r, info.label = subst x)
    ∧ (labels.length = files.length →
      ∀ r, buildCommandLineFileInfo subst globId files labels mimes =
          Except.ok r →
        r.length = files.length ∧
        ∀ i x, files.get? i = Option.some x →
          ∃ info, r.get? i = Option.some info ∧
            info.filename = basename x ∧
            info.label = subst (labels.getD i "")) := by
  have h0 : ¬ files.length = 0 := fun h => hne (List.length_eq_zero.mp h)
  refine ⟨⟨?_, ?_⟩, ?_, ?_, ?_⟩
  · rintro ⟨r, hr⟩
    exact (buildCLI_ok_inv _ _ _ _ _ _ hne hr).2
  · rintro ⟨hl, hm⟩
    refine ⟨((files.map globId).flatten).enum.map
      (fun p => mkFileInfo subst labels mimes p.1 p.2), ?_⟩
    unfold buildCommandLineFileInfo
    rw [if_neg h0, if_neg (by omega), if_neg (by omega)]
  · intro hl r hr info hinfo
    obtain ⟨hreq, _, _⟩ := buildCLI_ok_inv _ _ _ _ _ _ hne hr
    subst hreq
    obtain ⟨p, _, rfl⟩ := List.mem_map.mp hinfo
    simp [mkFileInfo, hl]
  · intro x hl r hr info hinfo
    obtain ⟨hreq, _, _⟩ := buildCLI_ok_inv _ _ _ _ _ _ hne hr
    subst hreq
    obtain ⟨p, _, rfl⟩ := List.mem_map.mp hinfo
    simp [mkFileInfo, hl]
  · intro hlen r hr
    obtain ⟨hreq, _, _⟩ := buildCLI_ok_inv _ _ _ _ _ _ hne hr
    subst hreq
    have hj : (files.map globId).flatten = files := flatten_map_singleton files
    constructor
    · simp [hj]
    · intro i x hx
      have hi : i < files.length := (List.get?_eq_some.mp hx).1
      rw [hj, List.get?_map, get?_enum, hx]
      refine ⟨_, rfl, rfl, ?_⟩
      by_cases hl1 : labels.length = 1
      · have hieq : i = 0 := by omega
        subst hieq
        simp [mkFileInfo, hl1]
      · have hlp : 0 < labels.length := by omega
        simp [mkFileInfo, hl1, hlp]

/-- Witness for C6 at a concrete input: three files with one label resolve
successfully (the single label applies to all), while the generality over
`subst` etc. is exercised through the theorem application. -/
theorem label_mime_count_rule_witness :
    ∃ r, buildCommandLineFileInfo id globId ["a", "b", "c"] ["x"] [] =
      Except.ok r :=
  (label_mime_count_rule ["a", "b", "c"] ["x"] [] id
      (by decide)).1.mpr (by decide)

/-! ## The Upload Coordinator (`ReleaseMgr._delete_release_asset`,
`_handle_upload_error`, `_upload_file`, `_upload_files`)

The remote release state is modelled as the list of its assets. The
gateway's behaviour on attempt `n` is an `AttemptSpec`: what the upload
primitive does (returns an asset or raises), and which asset, if any,
actually landed remotely despite a raised error (the "might actually have
succeeded" ambiguity). The coordinator's externally visible actions are
recorded as an `Event` trace. -/

/-- A remote release asset: its name and, when the asset object has a
`size` attribute, its reported size. -/
structure Asset where
  name : String
  size : Option Nat
  deriving DecidableEq, Repr

/-- The exception classes distinguished by the upload error handler:
`BrokenPipeError`, `socket.timeout`, `ConnectionAbortedError` (lines
880-884), the gateway's own `github.GithubException`, and any other
exception. -/
inductive UploadErr where
  | brokenPipe
  | sockTimeout
  | connAborted
  | githubExc
  | otherExc
  deriving DecidableEq, Repr

/-- What the gateway upload primitive does on one attempt. -/
inductive AttemptOutcome where
  | ok (a : Asset)
  | exn (e : UploadErr)
  deriving DecidableEq, Repr

/-- The gateway's behaviour on one attempt: the outcome of
`upload_asset`, plus the asset (if any) that is present remotely after an
`exn` outcome even though the call raised. -/
structure AttemptSpec where
  outcome : AttemptOutcome
  landed : Option Asset

/-- Result of `_upload_file`: a confirmed asset, or the exception finally
raised — `Option.none` models the bare `raise ConnectionError` used when
no error was captured on the last attempt (lines 980-984). -/
inductive UploadResult where
  | success (a : Asset)
  | failure (lastError : Option UploadErr)
  deriving DecidableEq, Repr

/-- The externally visible actions of the coordinator. `sleep` never
occurs in the embedded code; it exists so the absence of any pause can be
stated. -/
inductive Event where
  | deleteAsset (name : String)
  | attemptUpload (file : String) (n : Nat)
  | sleep (units : Nat)
  deriving DecidableEq, Repr

/-- Embedding of `ReleaseMgr._find_release_asset` by filename (lines 839-846): linear
scan, first match wins. -/
def findReleaseAsset (assets : List Asset) (filename : String) :
    Option Asset :=
  assets.find? (fun a => a.name = filename)

/-- Removal of the one asset `delete_asset.delete_asset()` deletes: the
first with a matching name. -/
def removeFirstAsset : List Asset → String → List Asset
  | [], _ => []
  | a :: rest, f =>
    if a.name = f then rest else a :: removeFirstAsset rest f

/-- Embedding of `ReleaseMgr._delete_release_asset` (lines 858-872): find the asset by
filename; delete it if present. -/
def deleteReleaseAsset (assets : List Asset) (filename : String) :
    List Asset × List Event :=
  match findReleaseAsset assets filename with
  | Option.some _ =>
    (removeFirstAsset assets filename, [Event.deleteAsset filename])
  | Option.none => (assets, [])

/-- The membership test `type(error) in (BrokenPipeError, socket.timeout,
ConnectionAbortedError)` of lines 880-884. Note `github.GithubException`
is not in the tuple. -/
def reconcilableErr : Option UploadErr → Bool
  | Option.some UploadErr.brokenPipe => true
  | Option.some UploadErr.sockTimeout => true
  | Option.some UploadErr.connAborted => true
  | _ => false

/-- Embedding of `ReleaseMgr._handle_upload_error` (lines 875-896): only
`BrokenPipeError`, `socket.timeout` and `ConnectionAbortedError` trigger
the reconciliation re-scan of the remote assets; the attempt is rescued
exactly when a same-named asset with the expected size is found. `remote`
is the asset list the re-scan observes. -/
def handleUploadError (error : Option UploadErr) (remote : List Asset)
    (filename : String) (completeFilesize : Nat) : Option Asset :=
  if reconcilableErr error then
    match findReleaseAsset remote filename with
    | Option.some a =>
      if a.size = Option.some completeFilesize then Option.some a
      else Option.none
    | Option.none => Option.none
  else Option.none

/-- The remote asset list after one upload attempt: a returned asset is
present; after a raised error, whatever actually landed is present. -/
def applyAttempt (st : List Asset) (spec : AttemptSpec) : List Asset :=
  match spec.outcome with
  | AttemptOutcome.ok a => st ++ [a]
  | AttemptOutcome.exn _ => st ++ spec.landed.toList

/-- The constant `satsuki.MAX_UPLOAD_ATTEMPTS` (line 34). -/
def MAX_UPLOAD_ATTEMPTS : Nat := 3

/-- The retry loop of `ReleaseMgr._upload_file` (lines 913-970), recursing
on the remaining attempts: each attempt consults the gateway, treats the
attempt as a confirmed success when no error was raised and the returned
asset's reported size equals the local size, otherwise consults
`handleUploadError`; on a rescue the reconciled asset is the success.
Exhausted attempts give `failure` carrying the last captured error. The
loop body contains no pause of any kind, mirroring the source. -/
def uploadLoop (gw : Nat → AttemptSpec) (filename : String) (size : Nat) :
    Nat → Nat → Option UploadErr → List Asset →
    UploadResult × List Asset × List Event
  | _, 0, lastErr, st => (UploadResult.failure lastErr, st, [])
  | attemptNum, rem + 1, _, st =>
    let spec := gw attemptNum
    let st1 := applyAttempt st spec
    let ev := Event.attemptUpload filename attemptNum
    match spec.outcome with
    | AttemptOutcome.ok a =>
      if a.size = Option.some size then (UploadResult.success a, st1, [ev])
      else
        match handleUploadError Option.none st1 filename size with
        | Option.some ra => (UploadResult.success ra, st1, [ev])
        | Option.none =>
          let r := uploadLoop gw filename size (attemptNum + 1) rem
            Option.none st1
          (r.1, r.2.1, ev :: r.2.2)
    | AttemptOutcome.exn e =>
      match handleUploadError (Option.some e) st1 filename size with
      | Option.some ra => (UploadResult.success ra, st1, [ev])
      | Option.none =>
        let r := uploadLoop gw filename size (attemptNum + 1) rem
          (Option.some e) st1
        (r.1, r.2.1, ev :: r.2.2)

/-- Embedding of `ReleaseMgr._upload_file` (lines 899-984): delete any same-named
remote asset, then run the bounded retry loop starting at attempt 1. -/
def uploadFile (gw : Nat → AttemptSpec) (filename : String) (size : Nat)
    (st : List Asset) : UploadResult × List Asset × List Event :=
  let d := deleteReleaseAsset st filename
  let r := uploadLoop gw filename size 1 MAX_UPLOAD_ATTEMPTS Option.none d.1
  (r.1, r.2.1, d.2 ++ r.2.2)

/-- Embedding of `ReleaseMgr._upload_files` (lines 987-1005): sequential per-file
uploads; a raised error propagates, aborting the remaining files. The
result is `Option.none` on total success, or `Option.some lastError` for
the propagated exception. `gw idx` is the gateway behaviour for the file
at position `idx`. -/
def uploadFiles (gw : Nat → Nat → AttemptSpec) :
    List (String × Nat) → Nat → List Asset →
    Option (Option UploadErr) × List Asset × List Event
  | [], _, st => (Option.none, st, [])
  | (f, sz) :: rest, idx, st =>
    match uploadFile (gw idx) f sz st with
    | (UploadResult.success _, st1, evs) =>
      let r := uploadFiles gw rest (idx + 1) st1
      (r.1, r.2.1, evs ++ r.2.2)
    | (UploadResult.failure le, st1, evs) => (Option.some le, st1, evs)

/-- The error captured by an attempt, as the loop records it: `None` when
`upload_asset` returned, the exception otherwise. -/
def errOf (spec : AttemptSpec) : Option UploadErr :=
  match spec.outcome with
  | AttemptOutcome.ok _ => Option.none
  | AttemptOutcome.exn e => Option.some e

/-- Recognizer for upload-attempt events. -/
def isAttemptEvent : Event → Bool
  | Event.attemptUpload _ _ => true
  | _ => false

/-- Recognizer for sleep events. -/
def isSleepEvent : Event → Bool
  | Event.sleep _ => true
  | _ => false

/-- Number of upload attempts recorded in a trace. -/
def attemptCount (evs : List Event) : Nat := evs.countP isAttemptEvent

/-- A rescued attempt always carries an asset found remotely with exactly
the expected size. -/
theorem handleUploadError_some (error : Option UploadErr)
    (remote : List Asset) (f : String) (sz : Nat) (a : Asset)
    (h : handleUploadError error remote f sz = Option.some a) :
    a.size = Option.some sz ∧ findReleaseAsset remote f = Option.some a := by
  unfold handleUploadError at h
  split at h
  · split at h
    case _ heq =>
      split at h
      · cases h
        exact ⟨by assumption, heq⟩
      · exact absurd h (by simp)
    case _ => exact absurd h (by simp)
  · exact absurd h (by simp)

/-- The retry loop with `n` remaining attempts records at most `n` upload
attempts. -/
theorem uploadLoop_attemptCount (gw : Nat → AttemptSpec) (f : String)
    (sz : Nat) :
    ∀ (n k : Nat) (le : Option UploadErr) (st : List Asset),
      attemptCount (uploadLoop gw f sz k n le st).2.2 ≤ n := by
  intro n
  induction n with
  | zero =>
    intro k le st
    simp [uploadLoop, attemptCount]
  | succ m ih =>
    intro k le st
    simp only [uploadLoop]
    split
    next a hout =>
      split
      · simp [attemptCount, isAttemptEvent]
      · split
        · simp [attemptCount, isAttemptEvent]
        · have hrec := ih (k + 1) Option.none
            (applyAttempt st (gw k))
          simp [attemptCount, List.countP_cons, isAttemptEvent] at hrec ⊢
          omega
    next e hout =>
      split
      · simp [attemptCount, isAttemptEvent]
      · have hrec := ih (k + 1) (Option.some e) (applyAttempt st (gw k))
        simp [attemptCount, List.countP_cons, isAttemptEvent] at hrec ⊢
        omega

/-- A success reported by the retry loop always carries an asset whose
reported size equals the expected size. -/
theorem uploadLoop_success_size (gw : Nat → AttemptSpec) (f : String)
    (sz : Nat) :
    ∀ (n k : Nat) (le : Option UploadErr) (st : List Asset) (a : Asset),
      (uploadLoop gw f sz k n le st).1 = UploadResult.success a →
      a.size = Option.some sz := by
  intro n
  induction n with
  | zero =>
    intro k le st a h
    exact absurd h (by simp [uploadLoop])
  | succ m ih =>
    intro k le st a h
    simp only [uploadLoop] at h
    split at h
    · split at h
      case _ hsz =>
        cases h
        assumption
      · split at h
        case _ hha =>
          cases h
          exact (handleUploadError_some _ _ _ _ _ hha).1
        · exact ih (k + 1) _ _ a h
    · split at h
      case _ hha =>
        cases h
        exact (handleUploadError_some _ _ _ _ _ hha).1
      · exact ih (k + 1) _ _ a h

/-- A failure reported by the retry loop carries the error captured on the
last attempt made (or the incoming value when no attempt remained). -/
theorem uploadLoop_failure_last (gw : Nat → AttemptSpec) (f : String)
    (sz : Nat) :
    ∀ (n k : Nat) (le0 : Option UploadErr) (st : List Asset)
      (le : Option UploadErr),
      (uploadLoop gw f sz k n le0 st).1 = UploadResult.failure le →
      (n = 0 ∧ le = le0) ∨ (1 ≤ n ∧ le = errOf (gw (k + n - 1))) := by
  intro n
  induction n with
  | zero =>
    intro k le0 st le h
    simp only [uploadLoop] at h
    left
    exact ⟨rfl, by cases h; rfl⟩
  | succ m ih =>
    intro k le0 st le h
    simp only [uploadLoop] at h
    split at h
    case _ a hout =>
      split at h
      · exact absurd h (by simp)
      · split at h
        · exact absurd h (by simp)
        · rcases ih (k + 1) Option.none (applyAttempt st (gw k)) le h with
            ⟨hm, hle⟩ | ⟨hm, hle⟩
          · subst hm
            right
            refine ⟨by omega, ?_⟩
            have hk : k + (0 + 1) - 1 = k := by omega
            rw [hk, errOf, hout]
            exact hle
          · right
            refine ⟨by omega, ?_⟩
            have hk : k + (m + 1) - 1 = k + 1 + m - 1 := by omega
            rw [hk]
            exact hle
    case _ e hout =>
      split at h
      · exact absurd h (by simp)
      · rcases ih (k + 1) (Option.some e) (applyAttempt st (gw k)) le h with
          ⟨hm, hle⟩ | ⟨hm, hle⟩
        · subst hm
          right
          refine ⟨by omega, ?_⟩
          have hk : k + (0 + 1) - 1 = k := by omega
          rw [hk, errOf, hout]
          exact hle
        · right
          refine ⟨by omega, ?_⟩
          have hk : k + (m + 1) - 1 = k + 1 + m - 1 := by omega
          rw [hk]
          exact hle

/-- The asset-deletion step records no upload attempt. -/
theorem deleteReleaseAsset_attemptCount (st : List Asset) (f : String) :
    attemptCount (deleteReleaseAsset st f).2 = 0 := by
  unfold deleteReleaseAsset
  split <;> simp [attemptCount, isAttemptEvent]

/-- C2: per file, at most `MAX_UPLOAD_ATTEMPTS = 3` upload attempts are
recorded; a success is confirmed only with the expected reported size; a
failure propagates the error captured on attempt 3 (`Option.none` models
the bare generic `ConnectionError`); and once one file fails, no
subsequent file of the manifest is processed — the run's outcome, state
and trace are exactly those of the failing file. -/
theorem upload_retry_bound_and_failfast (gw : Nat → AttemptSpec)
    (f : String) (sz : Nat) (st : List Asset) :
    attemptCount (uploadFile gw f sz st).2.2 ≤ MAX_UPLOAD_ATTEMPTS
    ∧ (∀ a, (uploadFile gw f sz st).1 = UploadResult.success a →
      a.size = Option.some sz)
    ∧ (∀ le, (uploadFile gw f sz st).1 = UploadResult.failure le →
      le = errOf (gw 3))
    ∧ (∀ (gw2 : Nat → Nat → AttemptSpec) (f2 : String) (sz2 : Nat)
        (rest : List (String × Nat)) (idx : Nat) (st2 st3 : List Asset)
        (le : Option UploadErr) (evs : List Event),
        uploadFile (gw2 idx) f2 sz2 st2 =
          (UploadResult.failure le, st3, evs) →
        uploadFiles gw2 ((f2, sz2) :: rest) idx st2 =
          (Option.some le, st3, evs)) := by
  refine ⟨?_, ?_, ?_, ?_⟩
  · have h1 := uploadLoop_attemptCount gw f sz MAX_UPLOAD_ATTEMPTS 1
      Option.none (deleteReleaseAsset st f).1
    have h2 := deleteReleaseAsset_attemptCount st f
    simp only [uploadFile, attemptCount, List.countP_append] at h1 h2 ⊢
    omega
  · intro a h
    exact uploadLoop_success_size gw f sz MAX_UPLOAD_ATTEMPTS 1
      Option.none (deleteReleaseAsset st f).1 a h
  · intro le h
    rcases uploadLoop_failure_last gw f sz MAX_UPLOAD_ATTEMPTS 1
        Option.none (deleteReleaseAsset st f).1 le h with
      ⟨hm, _⟩ | ⟨_, hle⟩
    · exact absurd hm (by simp [MAX_UPLOAD_ATTEMPTS])
    · exact hle
  · intro gw2 f2 sz2 rest idx st2 st3 le evs h
    simp only [uploadFiles]
    rw [h]

/-- A gateway on which every attempt raises a non-transport error and
nothing lands remotely. -/
def gwAllFailOther : Nat → AttemptSpec :=
  fun _ => ⟨AttemptOutcome.exn UploadErr.otherExc, Option.none⟩

/-- A gateway on which the first attempt returns the asset
`⟨"f", some 1⟩`. -/
def gwImmediateOk : Nat → AttemptSpec :=
  fun _ => ⟨AttemptOutcome.ok ⟨"f", Option.some 1⟩, Option.none⟩

/-- Witness for C2 at concrete inputs: a run whose first attempt succeeds
(yielding the size guarantee), and a run whose three attempts all raise
(yielding the propagated last error and the fail-fast manifold stop). -/
theorem upload_retry_bound_and_failfast_witness :
    Asset.size ⟨"f", Option.some 1⟩ = Option.some 1
    ∧ Option.some UploadErr.otherExc = errOf (gwAllFailOther 3)
    ∧ uploadFiles (fun _ => gwAllFailOther) [("f", 1), ("g", 2)] 0 [] =
      (Option.some (Option.some UploadErr.otherExc), [],
        [Event.attemptUpload "f" 1, Event.attemptUpload "f" 2,
          Event.attemptUpload "f" 3]) :=
  ⟨(upload_retry_bound_and_failfast gwImmediateOk "f" 1 []).2.1
      ⟨"f", Option.some 1⟩ (by decide),
    (upload_retry_bound_and_failfast gwAllFailOther "f" 1 []).2.2.1
      (Option.some UploadErr.otherExc) (by decide),
    (upload_retry_bound_and_failfast gwAllFailOther "f" 1 []).2.2.2
      (fun _ => gwAllFailOther) "f" 1 [("g", 2)] 0 [] []
      (Option.some UploadErr.otherExc)
      [Event.attemptUpload "f" 1, Event.attemptUpload "f" 2,
        Event.attemptUpload "f" 3] (by decide)⟩

/-- A gateway on which every attempt raises the gateway's own generic
exception while the matching asset `⟨"a.zip", some 5⟩` actually lands. -/
def gwGithubExcLanded : Nat → AttemptSpec :=
  fun _ => ⟨AttemptOutcome.exn UploadErr.githubExc,
    Option.some ⟨"a.zip", Option.some 5⟩⟩

/-- Counterexample to C3 as stated: the gateway's own generic exception
type does NOT trigger reconciliation — with a same-named asset of matching
size present remotely, `_handle_upload_error` still returns nothing for
it (while it rescues a broken pipe in the identical situation), and a full
upload run whose attempts all raise the generic gateway exception with the
asset landed each time still fails. -/
theorem gateway_exception_not_reconciled :
    handleUploadError (Option.some UploadErr.githubExc)
        [⟨"a.zip", Option.some 5⟩] "a.zip" 5 = Option.none
    ∧ handleUploadError (Option.some UploadErr.brokenPipe)
        [⟨"a.zip", Option.some 5⟩] "a.zip" 5 =
      Option.some ⟨"a.zip", Option.some 5⟩
    ∧ (uploadFile gwGithubExcLanded "a.zip" 5 []).1 =
      UploadResult.failure (Option.some UploadErr.githubExc) := by
  decide

/-- C3 (amended): exactly the errors in the family broken pipe, socket
timeout, connection aborted trigger reconciliation, and for those the
attempt is treated as successful despite the raised error exactly when a
same-named remote asset with the expected reported size exists; every
error outside this family — including the gateway's own generic exception
type — is never rescued by `_handle_upload_error`. -/
theorem reconciliation_family_rule (error : Option UploadErr)
    (remote : List Asset) (f : String) (sz : Nat) :
    (reconcilableErr error = true →
      ∀ a, handleUploadError error remote f sz = Option.some a ↔
        (findReleaseAsset remote f = Option.some a ∧
          a.size = Option.some sz))
    ∧ (reconcilableErr error = false →
      handleUploadError error remote f sz = Option.none) := by
  constructor
  · intro hfam a
    constructor
    · intro h
      exact ⟨(handleUploadError_some _ _ _ _ _ h).2,
        (handleUploadError_some _ _ _ _ _ h).1⟩
    · rintro ⟨hfind, hsz⟩
      simp [handleUploadError, hfam, hfind, hsz]
  · intro hfam
    unfold handleUploadError
    rw [if_neg (by simp [hfam])]

/-- Witness for C3's amended rule at a concrete input: a broken pipe with
a matching remote asset is rescued. -/
theorem reconciliation_family_rule_witness :
    handleUploadError (Option.some UploadErr.brokenPipe)
        [⟨"a.zip", Option.some 5⟩] "a.zip" 5 =
      Option.some ⟨"a.zip", Option.some 5⟩ :=
  ((reconciliation_family_rule (Option.some UploadErr.brokenPipe)
      [⟨"a.zip", Option.some 5⟩] "a.zip" 5).1 rfl
    ⟨"a.zip", Option.some 5⟩).mpr ⟨by decide, rfl⟩

/-- Counterexample to C9 as stated: a run in which attempt 1 fails and
attempts 2 and 3 follow, whose complete action trace contains upload
attempts only — no pause of any length is taken between attempts, where
the claim requires a `30 * attemptNumber` pause after each failed
attempt. -/
theorem no_backoff_counterexample :
    (uploadFile gwAllFailOther "f" 1 []).2.2 =
      [Event.attemptUpload "f" 1, Event.attemptUpload "f" 2,
        Event.attemptUpload "f" 3]
    ∧ (uploadFile gwAllFailOther "f" 1 []).1 =
      UploadResult.failure (Option.some UploadErr.otherExc)
    ∧ ((uploadFile gwAllFailOther "f" 1 []).2.2.all
        (fun ev => !(isSleepEvent ev))) = true := by
  decide

/-- The retry loop emits no sleep event with any gateway, state or fuel. -/
theorem uploadLoop_no_sleep (gw : Nat → AttemptSpec) (f : String)
    (sz : Nat) :
    ∀ (n k : Nat) (le : Option UploadErr) (st : List Asset),
      ((uploadLoop gw f sz k n le st).2.2.all
        (fun ev => !(isSleepEvent ev))) = true := by
  intro n
  induction n with
  | zero =>
    intro k le st
    simp [uploadLoop]
  | succ m ih =>
    intro k le st
    simp only [uploadLoop]
    split
    next a hout =>
      split
      · simp [isSleepEvent]
      · split
        · simp [isSleepEvent]
        · have hrec := ih (k + 1) Option.none (applyAttempt st (gw k))
          simp only [List.all_cons, Bool.and_eq_true]
          exact ⟨by simp [isSleepEvent], hrec⟩
    next e hout =>
      split
      · simp [isSleepEvent]
      · have hrec := ih (k + 1) (Option.some e) (applyAttempt st (gw k))
        simp only [List.all_cons, Bool.and_eq_true]
        exact ⟨by simp [isSleepEvent], hrec⟩

/-- C9 (amended): the per-file upload procedure performs no pause at all —
its entire action trace consists of asset deletions and upload attempts;
failed attempts are followed immediately by the next attempt. -/
theorem upload_has_no_pause (gw : Nat → AttemptSpec) (f : String)
    (sz : Nat) (st : List Asset) :
    ((uploadFile gw f sz st).2.2.all (fun ev => !(isSleepEvent ev))) =
      true := by
  have hloop := uploadLoop_no_sleep gw f sz MAX_UPLOAD_ATTEMPTS 1
    Option.none (deleteReleaseAsset st f).1
  have hdel : ((deleteReleaseAsset st f).2.all
      (fun ev => !(isSleepEvent ev))) = true := by
    unfold deleteReleaseAsset
    split <;> simp [isSleepEvent]
  simp only [uploadFile, List.all_append]
  rw [hloop, hdel]
  rfl

/-- In a state holding a matching asset, with every attempt raising a
non-transport error and nothing landing, the remote asset named `f` is
gone at the end: only the initial deletion touched the state. -/
theorem findReleaseAsset_removeFirst_of_countP_one (st : List Asset)
    (f : String) (h : st.countP (fun x => x.name = f) = 1) :
    findReleaseAsset (removeFirstAsset st f) f = Option.none := by
  induction st with
  | nil => rfl
  | cons a t ih =>
    by_cases hname : a.name = f
    · have hct : t.countP (fun x => x.name = f) = 0 := by
        simpa [List.countP_cons, hname] using h
      simp only [removeFirstAsset, if_pos hname, findReleaseAsset]
      rw [List.find?_eq_none]
      intro x hx
      have hall := List.countP_eq_zero.mp hct x hx
      simpa using hall
    · have hct : t.countP (fun x => x.name = f) = 1 := by
        simpa [List.countP_cons, hname] using h
      simp only [removeFirstAsset, if_neg hname, findReleaseAsset]
      rw [List.find?_cons]
      have hdec : (decide (a.name = f)) = false := by simpa using hname
      rw [hdec]
      exact ih hct

/-- C10: asset replacement is not atomic per file — with a same-named
remote asset present, the trace deletes it before attempt 1; when all
three attempts then fail (raising and landing nothing), the operation
fails with the last error, the final remote state is exactly the
post-deletion state (nothing is restored), and if the deleted asset was
the only one by that name, it is absent from the release at the end. -/
theorem asset_replacement_not_atomic (st : List Asset) (f : String)
    (sz : Nat) (a : Asset) (gw : Nat → AttemptSpec)
    (ha : findReleaseAsset st f = Option.some a)
    (hg : ∀ n, (gw n).outcome = AttemptOutcome.exn UploadErr.otherExc ∧
      (gw n).landed = Option.none) :
    (uploadFile gw f sz st).2.2 =
      [Event.deleteAsset f, Event.attemptUpload f 1,
        Event.attemptUpload f 2, Event.attemptUpload f 3]
    ∧ (uploadFile gw f sz st).1 =
      UploadResult.failure (Option.some UploadErr.otherExc)
    ∧ (uploadFile gw f sz st).2.1 = removeFirstAsset st f
    ∧ (st.countP (fun x => x.name = f) = 1 →
      findReleaseAsset (uploadFile gw f sz st).2.1 f = Option.none) := by
  obtain ⟨o1, l1⟩ := hg 1
  obtain ⟨o2, l2⟩ := hg 2
  obtain ⟨o3, l3⟩ := hg 3
  have key : uploadFile gw f sz st =
      (UploadResult.failure (Option.some UploadErr.otherExc),
        removeFirstAsset st f,
        [Event.deleteAsset f, Event.attemptUpload f 1,
          Event.attemptUpload f 2, Event.attemptUpload f 3]) := by
    unfold uploadFile deleteReleaseAsset
    rw [ha]
    simp [MAX_UPLOAD_ATTEMPTS, uploadLoop, applyAttempt, o1, o2, o3,
      l1, l2, l3, handleUploadError, reconcilableErr]
  refine ⟨?_, ?_, ?_, ?_⟩
  · rw [key]
  · rw [key]
  · rw [key]
  · intro hcount
    rw [key]
    exact findReleaseAsset_removeFirst_of_countP_one st f hcount

/-- Witness for C10 at a concrete input: a release holding exactly
`⟨"f", some 1⟩`, a gateway whose attempts all fail without landing
anything — after the run, no asset named "f" remains. -/
theorem asset_replacement_not_atomic_witness :
    findReleaseAsset
        (uploadFile gwAllFailOther "f" 1 [⟨"f", Option.some 1⟩]).2.1
        "f" = Option.none :=
  (asset_replacement_not_atomic [⟨"f", Option.some 1⟩] "f" 1
      ⟨"f", Option.some 1⟩ gwAllFailOther (by decide)
      (fun _ => ⟨rfl, rfl⟩)).2.2.2 (by decide)

end Satsuki
